import Mathlib

/-
Verification of the bandersnatch configuration subsystem
(`src/bandersnatch/configuration/*`): a shallow embedding of the
configuration source model, the legacy `{{ section_option }}` reference
resolvers, the `MirrorConfiguration` validation pipeline, and the
validated-object caches, together with theorems settling the claims
about them.

Modelling conventions:
  * `PurePath` values are modelled as raw posix-style strings; path
    joining (`/` on `PurePath`) is `pathJoin`.  The claims never exercise
    `PurePath`'s name normalisation.
  * Python `float` is modelled as `Rat`; `int` as `Int`.
  * configparser sources are modelled post-parse: a list of sections,
    each a list of (normalised option name, already-interpolated value).
    `optionxform` (lower-case, `-` to `_`) is applied on option lookup as
    `ConfigParser.get` does.
  * Python exceptions become `Except` errors.
-/

namespace Bandersnatch

/-- Python `str.isspace` characters relevant to `\s` in `re` and `str.strip()`
(ASCII range, which is all the embedded strings use). -/
def isPySpace (c : Char) : Bool :=
  c = ' ' || c = '\t' || c = '\n' || c = '\r' || c = '\x0b' || c = '\x0c'

/-- Python `str.strip()` with no argument: drop leading and trailing whitespace. -/
def pyStrip (s : String) : String :=
  ⟨((s.data.dropWhile isPySpace).reverse.dropWhile isPySpace).reverse⟩

/-- Does the character list start with the given pattern? -/
def listStartsWith : List Char → List Char → Bool
  | _, [] => true
  | [], _ :: _ => false
  | c :: r, p :: ps => c = p && listStartsWith r ps

/-- One fuelled pass of left-to-right non-overlapping replacement; the fuel
(always instantiated to the list length, an upper bound on the number of
steps) only makes the recursion structural and never runs out. -/
def replaceFuel (pat repl : List Char) : Nat → List Char → List Char
  | _, [] => []
  | 0, l => l
  | fuel + 1, c :: r =>
    if pat.isEmpty then c :: r
    else if listStartsWith (c :: r) pat then
      repl ++ replaceFuel pat repl fuel (r.drop (pat.length - 1))
    else c :: replaceFuel pat repl fuel r

/-- Python `str.replace(pat, repl)` for a non-empty pattern: replace every
non-overlapping occurrence left to right. -/
def pyReplace (s pat repl : String) : String :=
  ⟨replaceFuel pat.data repl.data s.data.length s.data⟩

/-- Does the pattern occur anywhere in the character list? -/
def containsList : List Char → List Char → Bool
  | [], pat => pat.isEmpty
  | c :: r, pat => listStartsWith (c :: r) pat || containsList r pat

/-- Python `needle in haystack` for a non-empty needle. -/
def strContains (haystack needle : String) : Bool :=
  containsList haystack.data needle.data

/-- Python `str.partition("_")` restricted to the two components the source
uses: the text before the first `_` and the text after it (empty when the
separator is absent, exactly as `partition` yields). -/
def pyPartitionUnderscore (s : String) : String × String :=
  let before := s.data.takeWhile (fun c => c != '_')
  match s.data.drop before.length with
  | _ :: r => (⟨before⟩, ⟨r⟩)
  | [] => (⟨before⟩, "")

/-- Association-list lookup by string key (Python `dict` lookup for the
insertion patterns the source uses). -/
def alookup {α : Type} : List (String × α) → String → Option α
  | [], _ => none
  | (k, v) :: r, key => if k = key then some v else alookup r key

/-- Python `str.lower()` (ASCII; no option name in the claims leaves ASCII). -/
def pyToLower (s : String) : String :=
  ⟨s.data.map Char.toLower⟩

/-- Python `str.upper()` (ASCII). -/
def pyToUpper (s : String) : String :=
  ⟨s.data.map Char.toUpper⟩

/-- `BandersnatchConfig.optionxform` from `core.py`: lower-case the option
name and replace `-` with `_`. -/
def optionxform (s : String) : String :=
  ⟨(pyToLower s).data.map (fun c => if c = '-' then '_' else c)⟩

/-- A parsed configuration source: section name to (normalised option name,
resolved value) pairs.  Stored option names are normalised because
configparser applies `optionxform` when storing. -/
structure ConfigSource where
  sections : List (String × List (String × String))

/-- Errors raised by `ConfigParser.get`: `NoSectionError` / `NoOptionError`. -/
inductive RefError where
  | valueError (msg : String)
  | noSectionError (sectName : String)
  | noOptionError (sectName optName : String)
deriving DecidableEq

/-- `ConfigParser.get(section, option)`: the section name is used as given,
the option name goes through `optionxform`. -/
def ConfigSource.getE (c : ConfigSource) (sectName optName : String) :
    Except RefError String :=
  match alookup c.sections sectName with
  | none => .error (.noSectionError sectName)
  | some sec =>
    match alookup sec (optionxform optName) with
    | some v => .ok v
    | none => .error (.noOptionError sectName optName)

/-- Lookup of one option inside an already-fetched section
(`SectionProxy.get(key)` with its `fallback=None`). -/
def sectionGet (sec : List (String × String)) (key : String) : Option String :=
  alookup sec (optionxform key)

/-
The legacy-reference pattern from `core.py` (`_LEGACY_REF_PARTS_RE`,
compiled with `re.VERBOSE` and evaluated by `re.match`):

    ^(?P<pre>.*)\{\{
    \s*
    (?P<section>[^_\s](?:[^_]*[^_\s]))
    \s*_\s*
    (?P<option>\S(?:.*\S)?)
    \s*
    \}\}(?P<post>.*)$

The functions below implement this exact pattern with Python's greedy
backtracking semantics, one function per pattern segment, each preferring
the greedy continuation and falling back on failure.  `.` does not match
a newline; `$` also matches just before one final trailing newline.
-/

/-- Segment `(?P<post>.*)$`. -/
def pPost (cs : List Char) : Option (List Char) :=
  let post := cs.takeWhile (fun c => c != '\n')
  match cs.drop post.length with
  | [] => some post
  | ['\n'] => some post
  | _ => none

/-- Segment `\}\}` followed by the post segment. -/
def pClose (cs : List Char) : Option (List Char) :=
  match cs with
  | '}' :: '}' :: r => pPost r
  | _ => none

/-- Segment `\s*` before the closing braces (greedy). -/
def pWs4 : List Char → Option (List Char)
  | [] => pClose []
  | c :: r =>
    if isPySpace c then
      match pWs4 r with
      | some p => some p
      | none => pClose (c :: r)
    else pClose (c :: r)

/-- Tail of the option group: `.*\S` (greedy `.*`), then `\s*\}\}(.*)$`.
Returns the characters matched by `.*\S` and the post segment. -/
def pOptTail : List Char → Option (List Char × List Char)
  | [] => none
  | c :: r =>
    if c = '\n' then none
    else
      match pOptTail r with
      | some (t, p) => some (c :: t, p)
      | none =>
        if isPySpace c then none
        else (pWs4 r).map (fun p => ([c], p))

/-- Segment `(?P<option>\S(?:.*\S)?)` (the optional group is tried first,
being greedy), then `\s*\}\}(.*)$`.  Returns (option, post). -/
def pOption : List Char → Option (List Char × List Char)
  | [] => none
  | c :: r =>
    if isPySpace c then none
    else
      match pOptTail r with
      | some (t, p) => some (c :: t, p)
      | none => (pWs4 r).map (fun p => ([c], p))

/-- Segment `\s*` after the underscore (greedy), then the option segment. -/
def pWs3 : List Char → Option (List Char × List Char)
  | [] => pOption []
  | c :: r =>
    if isPySpace c then
      match pWs3 r with
      | some x => some x
      | none => pOption (c :: r)
    else pOption (c :: r)

/-- The literal `_` separator, then the rest. -/
def pUnder (cs : List Char) : Option (List Char × List Char) :=
  match cs with
  | '_' :: r => pWs3 r
  | _ => none

/-- Segment `\s*` before the underscore (greedy). -/
def pWs2 : List Char → Option (List Char × List Char)
  | [] => pUnder []
  | c :: r =>
    if isPySpace c then
      match pWs2 r with
      | some x => some x
      | none => pUnder (c :: r)
    else pUnder (c :: r)

/-- Tail of the section group: `[^_]*[^_\s]` (greedy `[^_]*`), then the
separator and the rest.  Returns (section tail, option, post). -/
def pSecTail : List Char → Option (List Char × List Char × List Char)
  | [] => none
  | c :: r =>
    if c = '_' then none
    else
      match pSecTail r with
      | some (t, o, p) => some (c :: t, o, p)
      | none =>
        if isPySpace c then none
        else (pWs2 r).map (fun op => ([c], op.1, op.2))

/-- Segment `(?P<section>[^_\s](?:[^_]*[^_\s]))`: the group after the first
character is mandatory, so a section match is at least two characters. -/
def pSection : List Char → Option (List Char × List Char × List Char)
  | [] => none
  | c :: r =>
    if isPySpace c || c = '_' then none
    else (pSecTail r).map (fun sop => (c :: sop.1, sop.2.1, sop.2.2))

/-- Segment `\s*` after the opening braces (greedy). -/
def pWs1 : List Char → Option (List Char × List Char × List Char)
  | [] => pSection []
  | c :: r =>
    if isPySpace c then
      match pWs1 r with
      | some x => some x
      | none => pSection (c :: r)
    else pSection (c :: r)

/-- The literal `\{\{`, then the rest of the pattern. -/
def pBraces (cs : List Char) : Option (List Char × List Char × List Char) :=
  match cs with
  | '{' :: '{' :: r => pWs1 r
  | _ => none

/-- Segment `^(?P<pre>.*)\{\{` (greedy): prefer to extend `pre`, falling back
to matching the braces at the current position.  Returns
(pre, section, option, post). -/
def pPre : List Char → Option (List Char × List Char × List Char × List Char)
  | [] => (pBraces []).map (fun sop => ([], sop.1, sop.2.1, sop.2.2))
  | c :: r =>
    let deeper :=
      if c = '\n' then none
      else (pPre r).map (fun x => (c :: x.1, x.2.1, x.2.2.1, x.2.2.2))
    match deeper with
    | some x => some x
    | none => (pBraces (c :: r)).map (fun sop => ([], sop.1, sop.2.1, sop.2.2))

/-- `re.match(_LEGACY_REF_PARTS_RE, value, re.VERBOSE)`: on success yields
the groups (pre, section, option, post). -/
def legacyRefParse (value : String) : Option (String × String × String × String) :=
  (pPre value.data).map (fun x => (⟨x.1⟩, ⟨x.2.1⟩, ⟨x.2.2.1⟩, ⟨x.2.2.2⟩))

/-- The values relevant to `eval_legacy_reference`'s `fallback` parameter and
result: a string, Python `None`, or the module's `UNSET` sentinel (also the
default of the parameter, marking "no fallback supplied"). -/
inductive PyVal where
  | str (s : String)
  | pyNone
  | unsetSentinel
deriving DecidableEq

/-- `eval_legacy_reference` from `core.py`: parse the value against the
legacy-reference pattern; on parse failure raise `ValueError` unless a
fallback was supplied (`fallback is UNSET` check); on a reference to a
missing section/option re-raise unless `fallback is None` — note the source
compares against `None` here, not against `UNSET`. -/
def eval_legacy_reference (config : ConfigSource) (value : String)
    (fallback : PyVal := PyVal.unsetSentinel) : Except RefError PyVal :=
  match legacyRefParse value with
  | none =>
    if fallback = PyVal.unsetSentinel then
      .error (.valueError
        ("Unable to parse config option reference from '" ++ value ++ "'"))
    else .ok fallback
  | some (pre, sectName, optName, post) =>
    match config.getE sectName optName with
    | .ok refValue => .ok (.str (pre ++ refValue ++ post))
    | .error e => if fallback = PyVal.pyNone then .error e else .ok fallback

/-- `_has_legacy_section_reference` from `mirror.py`:
`"{{" in value and "}}" in value`. -/
def _has_legacy_section_reference (value : String) : Bool :=
  strContains value "\x7b\x7b" && strContains value "\x7d\x7d"

/-- `_eval_legacy_section_reference` from `mirror.py`: strip the brace pairs,
split at the first `_`, strip whitespace, and look the pair up; a lookup
failure is logged and `None` is returned so the attrs initializer falls back
to the field default. -/
def _eval_legacy_section_reference (config : ConfigSource) (value : String) :
    Option String :=
  let raw_ref := pyReplace (pyReplace value "\x7b\x7b" "") "\x7d\x7d" ""
  let parts := pyPartitionUnderscore raw_ref
  let ref_section := pyStrip parts.1
  let ref_key := pyStrip parts.2
  (config.getE ref_section ref_key).toOption

/-- Modelled from the spec: `bandersnatch.simple.SimpleFormat` (module absent
from src/), the enum `{ALL, HTML, JSON}` of §4.3. -/
inductive SimpleFormat where
  | ALL
  | HTML
  | JSON
deriving DecidableEq

/-- Modelled from the spec: `bandersnatch.simple.get_format_value` (module
absent from src/), mapping an option string to a `SimpleFormat`, failing with
a `ValueError` message for anything else. -/
def get_format_value (s : String) : Except String SimpleFormat :=
  match pyToUpper s with
  | "ALL" => .ok .ALL
  | "HTML" => .ok .HTML
  | "JSON" => .ok .JSON
  | _ => .error ("not a valid simple format: " ++ s)

/-- Modelled from the spec: `configuration.comparison.ComparisonMethod`
(module absent from src/), the enum `{HASH, STAT}` of §4.3. -/
inductive ComparisonMethod where
  | HASH
  | STAT
deriving DecidableEq

/-- Modelled from the spec: `configuration.comparison.get_comparison_value`
(module absent from src/). -/
def get_comparison_value (s : String) : Except String ComparisonMethod :=
  match pyToUpper s with
  | "HASH" => .ok .HASH
  | "STAT" => .ok .STAT
  | _ => .error ("not a valid comparison method: " ++ s)

/-- Modelled from the spec: `bandersnatch.simple.SimpleDigest` (module absent
from src/), the enum `{MD5, SHA256, ...}` of §4.3. -/
inductive SimpleDigest where
  | MD5
  | SHA256
deriving DecidableEq

/-- Modelled from the spec: `bandersnatch.simple.get_digest_value` (module
absent from src/). -/
def get_digest_value (s : String) : Except String SimpleDigest :=
  match pyToUpper s with
  | "MD5" => .ok .MD5
  | "SHA256" => .ok .SHA256
  | _ => .error ("not a valid digest name: " ++ s)

/-- Valid run of decimal digits with embedded single underscores, as accepted
after the optional sign by Python `int(str)`: starts with a digit, and an
underscore is always followed by a digit. -/
def intDigitsRest : List Char → Bool
  | [] => true
  | '_' :: c :: r => c.isDigit && intDigitsRest r
  | ['_'] => false
  | c :: r => c.isDigit && intDigitsRest r

/-- The digit-run check including the leading digit. -/
def intDigitsOk : List Char → Bool
  | [] => false
  | c :: r => c.isDigit && intDigitsRest r

/-- Numeric value of a digit run, skipping underscores. -/
def digitsToNat (cs : List Char) : Nat :=
  cs.foldl (fun acc c => if c = '_' then acc else acc * 10 + (c.toNat - '0'.toNat)) 0

/-- Python `int(str)`: surrounding whitespace stripped, optional sign, then a
digit run with single embedded underscores (ASCII digits; the claims use no
other digits). -/
def pythonInt (s : String) : Option Int :=
  match (pyStrip s).data with
  | '+' :: r => if intDigitsOk r then some (Int.ofNat (digitsToNat r)) else none
  | '-' :: r => if intDigitsOk r then some (-(Int.ofNat (digitsToNat r))) else none
  | r => if intDigitsOk r then some (Int.ofNat (digitsToNat r)) else none

/-- Digit run for one part of a float literal, `none` when invalid. -/
def parseUDigits (cs : List Char) : Option Nat :=
  if intDigitsOk cs then some (digitsToNat cs) else none

/-- Mantissa and exponent of Python `float(str)` after the sign, modelled over
`Rat` (`inf`/`nan` are not representable and yield `none`; no claim exercises
them). -/
def pythonFloatCore (cs : List Char) : Option Rat :=
  let mant := cs.takeWhile (fun c => c != 'e' && c != 'E')
  let expVal : Option Int :=
    match cs.drop mant.length with
    | [] => some 0
    | _ :: er =>
      match er with
      | '+' :: r => (parseUDigits r).map Int.ofNat
      | '-' :: r => (parseUDigits r).map (fun n => -(Int.ofNat n))
      | r => (parseUDigits r).map Int.ofNat
  match expVal with
  | none => none
  | some e =>
    let ip := mant.takeWhile (fun c => c != '.')
    match mant.drop ip.length with
    | [] => (parseUDigits ip).map (fun n => (n : Rat) * (10 : Rat) ^ e)
    | '.' :: fp =>
      if (ip.isEmpty || intDigitsOk ip) && (fp.isEmpty || intDigitsOk fp)
          && !(ip.isEmpty && fp.isEmpty) then
        some (((digitsToNat ip : Rat)
          + (digitsToNat fp : Rat) / (10 : Rat) ^ (fp.countP (fun c => c.isDigit)))
          * (10 : Rat) ^ e)
      else none
    | _ => none

/-- Python `float(str)`: strip, optional sign, mantissa and exponent. -/
def pythonFloat (s : String) : Option Rat :=
  match (pyStrip s).data with
  | '+' :: r => pythonFloatCore r
  | '-' :: r => (pythonFloatCore r).map Neg.neg
  | r => pythonFloatCore r

/-- The two exception kinds `MirrorConfiguration.from_config_parser` catches
around the attrs initializer: `ValueError` and `TypeError`. -/
inductive PyExc where
  | valueError (msg : String)
  | typeError (msg : String)
deriving DecidableEq

/-- `attrs.converters.to_bool`, modelled from the attrs documentation: maps
the lower-cased string through the fixed truthy/falsy vocabulary. -/
def toBoolPy (s : String) : Except String Bool :=
  match pyToLower s with
  | "true" | "t" | "yes" | "y" | "on" | "1" => .ok true
  | "false" | "f" | "no" | "n" | "off" | "0" => .ok false
  | _ => .error ("Cannot convert value to bool: " ++ s)

/-- `int(str)` as an attrs converter with Python's `ValueError` message. -/
def intOfPy (s : String) : Except String Int :=
  match pythonInt s with
  | some n => .ok n
  | none => .error ("invalid literal for int() with base 10: '" ++ s ++ "'")

/-- `float(str)` as an attrs converter with Python's `ValueError` message. -/
def floatOfPy (s : String) : Except String Rat :=
  match pythonFloat s with
  | some q => .ok q
  | none => .error ("could not convert string to float: '" ++ s ++ "'")

/-- `PurePath(str)` as an attrs converter; paths are modelled as raw strings
and the constructor never fails. -/
def purePathOfPy (s : String) : Except String String := .ok s

/-- `converter_for_type` from `converter.py`: wrap a converter so a
`ValueError` is re-raised with a message naming the option and the expected
type. -/
def converter_for_type {α : Type} (typeName fieldAlias : String)
    (inner : String → Except String α) : String → Except PyExc α :=
  fun v =>
    match inner v with
    | .ok x => .ok x
    | .error e =>
      .error (.valueError ("can't convert option '" ++ fieldAlias
        ++ "' to expected type '" ++ typeName ++ "': " ++ e))

/-- The converter `convert_by_annotation` attaches to each `int`-annotated
field of `MirrorConfiguration` (fields `keep_index_versions`, `workers`,
`verifiers`). -/
def intOptionConverter (fieldAlias : String) : String → Except PyExc Int :=
  converter_for_type "int" fieldAlias intOfPy

/-- The aliases of the `int`-annotated fields of `MirrorConfiguration`. -/
def mirrorIntOptionAliases : List String :=
  ["keep_index_versions", "workers", "verifiers"]

/-- An `if_str`-style enum converter: applied to a string kwarg, passed over
for the (already typed) default.  Errors are plain `ValueError`s, not wrapped
by `converter_for_type` (the field declares its own converter). -/
def liftVE {α : Type} (r : Except String α) : Except PyExc α :=
  match r with
  | .ok x => .ok x
  | .error e => .error (.valueError e)

/-- `attrs.validators.min_len(1)` (the `not_empty` alias in `converter.py`). -/
def vNotEmpty (fieldName : String) (v : String) : Except PyExc Unit :=
  if 1 ≤ v.length then .ok ()
  else .error (.valueError ("Length of '" ++ fieldName ++ "' must be >= 1: "
    ++ toString v.length))

/-- `attrs.validators.optional(not_empty)`. -/
def vOptNotEmpty (fieldName : String) (v : Option String) : Except PyExc Unit :=
  match v with
  | none => .ok ()
  | some s => vNotEmpty fieldName s

/-- `attrs.validators.ge(bound)` over `Int`. -/
def vGeInt (fieldName : String) (bound v : Int) : Except PyExc Unit :=
  if bound ≤ v then .ok ()
  else .error (.valueError ("'" ++ fieldName ++ "' must be >= "
    ++ toString bound ++ ": " ++ toString v))

/-- `attrs.validators.gt(bound)` over `Int`. -/
def vGtInt (fieldName : String) (bound v : Int) : Except PyExc Unit :=
  if bound < v then .ok ()
  else .error (.valueError ("'" ++ fieldName ++ "' must be > "
    ++ toString bound ++ ": " ++ toString v))

/-- `attrs.validators.le(bound)` over `Int`. -/
def vLeInt (fieldName : String) (bound v : Int) : Except PyExc Unit :=
  if v ≤ bound then .ok ()
  else .error (.valueError ("'" ++ fieldName ++ "' must be <= "
    ++ toString bound ++ ": " ++ toString v))

/-- `attrs.validators.gt(bound)` over the `Rat` model of `float`. -/
def vGtRat (fieldName : String) (bound v : Rat) : Except PyExc Unit :=
  if bound < v then .ok ()
  else .error (.valueError ("'" ++ fieldName ++ "' must be > "
    ++ toString bound ++ ": " ++ toString v))

/-- `PurePath.__truediv__` on the posix-string path model. -/
def pathJoin (a b : String) : String :=
  if a.data.getLast? = some '/' then a ++ b
  else if a = "" then b
  else a ++ "/" ++ b

/-- The attrs class `MirrorConfiguration` from `mirror.py`, with `PurePath`
fields as path strings, `float` fields as `Rat` and `int` fields as `Int`. -/
structure MirrorConfiguration where
  directory : String
  storage_backend_name : String
  master_url : String
  proxy_url : Option String
  download_mirror_url : Option String
  download_mirror_no_fallback : Bool
  simple_format : SimpleFormat
  save_release_files : Bool
  save_json : Bool
  root_uri : String
  hash_index : Bool
  keep_index_versions : Int
  diff_file : String
  diff_append_epoch : Bool
  stop_on_error : Bool
  timeout : Rat
  global_timeout : Rat
  workers : Int
  verifiers : Int
  compare_method : ComparisonMethod
  digest_name : SimpleDigest
  log_config : Option String
  cleanup : Bool
deriving DecidableEq

/-- `_default_root_uri` from `mirror.py`. -/
def _default_root_uri : String := "https://files.pythonhosted.org"

/-- `MirrorConfiguration.__attrs_post_init__`: when release files are not
saved and `root_uri` is falsy, set `root_uri` to the fixed fallback (with a
warning); otherwise leave the instance unchanged. -/
def attrsPostInit (c : MirrorConfiguration) : MirrorConfiguration :=
  if c.save_release_files = false ∧ c.root_uri = "" then
    { c with root_uri := _default_root_uri }
  else c

/-- The keyword-arguments dict built by `from_config_parser` before invoking
the attrs initializer: one optional raw string per field, keyed (here: named)
by the field's alias. -/
structure RawMirrorKwargs where
  directory : Option String := none
  storage_backend : Option String := none
  master : Option String := none
  proxy : Option String := none
  download_mirror : Option String := none
  download_mirror_no_fallback : Option String := none
  simple_format : Option String := none
  release_files : Option String := none
  json : Option String := none
  root_uri : Option String := none
  hash_index : Option String := none
  keep_index_versions : Option String := none
  diff_file : Option String := none
  diff_append_epoch : Option String := none
  stop_on_error : Option String := none
  timeout : Option String := none
  global_timeout : Option String := none
  workers : Option String := none
  verifiers : Option String := none
  compare_method : Option String := none
  digest_name : Option String := none
  log_config : Option String := none
  cleanup : Option String := none

/-- One field assignment in the attrs-generated initializer: a kwarg string
goes through the field's converter, an absent kwarg takes the declared
default (attrs applies converters to defaults too, which is the identity on
the already-typed defaults modelled here). -/
def convertField {α : Type} (v : Option String) (dflt : α)
    (conv : String → Except PyExc α) : Except PyExc α :=
  match v with
  | none => .ok dflt
  | some s => conv s

/-- The attrs-generated initializer of `MirrorConfiguration`: convert each
field in declaration order (the `diff_file` default factory reads the already
assigned `directory`), then run the validators in declaration order, then
`__attrs_post_init__`. -/
def mkMirrorConfiguration (kw : RawMirrorKwargs) :
    Except PyExc MirrorConfiguration := do
  let directory ←
    match kw.directory with
    | none => Except.error (PyExc.typeError
        "missing 1 required keyword-only argument: 'directory'")
    | some s => converter_for_type "PurePath" "directory" purePathOfPy s
  let storage_backend_name := kw.storage_backend.getD "filesystem"
  let master_url := kw.master.getD "https://pypi.org"
  let proxy_url := kw.proxy
  let download_mirror_url := kw.download_mirror
  let download_mirror_no_fallback ← convertField kw.download_mirror_no_fallback
    false (converter_for_type "bool" "download_mirror_no_fallback" toBoolPy)
  let simple_format ← convertField kw.simple_format SimpleFormat.ALL
    (fun s => liftVE (get_format_value s))
  let save_release_files ← convertField kw.release_files true
    (converter_for_type "bool" "release_files" toBoolPy)
  let save_json ← convertField kw.json false
    (converter_for_type "bool" "json" toBoolPy)
  let root_uri := kw.root_uri.getD ""
  let hash_index ← convertField kw.hash_index false
    (converter_for_type "bool" "hash_index" toBoolPy)
  let keep_index_versions ← convertField kw.keep_index_versions 0
    (intOptionConverter "keep_index_versions")
  let diff_file ← convertField kw.diff_file (pathJoin directory "mirrored-files")
    (converter_for_type "PurePath" "diff_file" purePathOfPy)
  let diff_append_epoch ← convertField kw.diff_append_epoch false
    (converter_for_type "bool" "diff_append_epoch" toBoolPy)
  let stop_on_error ← convertField kw.stop_on_error false
    (converter_for_type "bool" "stop_on_error" toBoolPy)
  let timeout ← convertField kw.timeout 10
    (converter_for_type "float" "timeout" floatOfPy)
  let global_timeout ← convertField kw.global_timeout 1800
    (converter_for_type "float" "global_timeout" floatOfPy)
  let workers ← convertField kw.workers 3 (intOptionConverter "workers")
  let verifiers ← convertField kw.verifiers 3 (intOptionConverter "verifiers")
  let compare_method ← convertField kw.compare_method ComparisonMethod.HASH
    (fun s => liftVE (get_comparison_value s))
  let digest_name ← convertField kw.digest_name SimpleDigest.SHA256
    (fun s => liftVE (get_digest_value s))
  let log_config := kw.log_config
  let cleanup ← convertField kw.cleanup false
    (converter_for_type "bool" "cleanup" toBoolPy)
  let c : MirrorConfiguration :=
    { directory, storage_backend_name, master_url, proxy_url,
      download_mirror_url, download_mirror_no_fallback, simple_format,
      save_release_files, save_json, root_uri, hash_index,
      keep_index_versions, diff_file, diff_append_epoch, stop_on_error,
      timeout, global_timeout, workers, verifiers, compare_method,
      digest_name, log_config, cleanup }
  vNotEmpty "storage_backend_name" c.storage_backend_name
  vNotEmpty "master_url" c.master_url
  vOptNotEmpty "proxy_url" c.proxy_url
  vOptNotEmpty "download_mirror_url" c.download_mirror_url
  vGeInt "keep_index_versions" 0 c.keep_index_versions
  vGtRat "timeout" 0 c.timeout
  vGtRat "global_timeout" 0 c.global_timeout
  vGtInt "workers" 0 c.workers
  vLeInt "workers" 10 c.workers
  vGtInt "verifiers" 0 c.verifiers
  vLeInt "verifiers" 10 c.verifiers
  pure (attrsPostInit c)

/-- The error taxonomy of `configuration.errors` as used by `mirror.py`; the
module itself is absent from src/, so the constructors and the user-facing
message shapes are modelled from the spec (§7: every message embeds the
section and option names) and the sibling `exceptions.py`. -/
inductive ConfigError where
  | configurationError (msg : String)
  | missingOptionError (msg : String)
  | invalidValueError (msg : String)
deriving DecidableEq

/-- Modelled from the spec: `MissingOptionError.for_option` of the absent
`errors` module, message shape as in `exceptions.py`. -/
def missingOptionFor (sectionName optionName : String) : ConfigError :=
  .missingOptionError ("Config section '[" ++ sectionName
    ++ "]' missing required option '" ++ optionName ++ "'")

/-- Modelled from the spec: `InvalidValueError.for_section` of the absent
`errors` module, embedding the section name and the inner `ValueError`
message. -/
def invalidValueFor (sectionName msg : String) : ConfigError :=
  .invalidValueError ("Config section '[" ++ sectionName ++ "]': " ++ msg)

/-- Modelled from the spec: `ConfigurationError.for_section` of the absent
`errors` module. -/
def configurationErrorFor (sectionName msg : String) : ConfigError :=
  .configurationError ("Config section '[" ++ sectionName ++ "]': " ++ msg)

/-- `MirrorConfiguration.from_config_parser` from `mirror.py`: require the
`[mirror]` section; walk the fields collecting raw kwargs (the required
`directory` must have a truthy value; a `diff_file` value containing a legacy
reference is replaced by its evaluation, which is `None` on lookup failure);
then run the attrs initializer, translating `ValueError` into
`InvalidValueError` and `TypeError` into `ConfigurationError`. -/
def MirrorConfiguration.fromConfigParser (config : ConfigSource) :
    Except ConfigError MirrorConfiguration :=
  match alookup config.sections "mirror" with
  | none => .error (.configurationError
      "Configuration file missing required section '[mirror]'")
  | some source =>
    let dirv := sectionGet source "directory"
    if dirv = none ∨ dirv = some "" then
      .error (missingOptionFor "mirror" "directory")
    else
      let diffv :=
        match sectionGet source "diff_file" with
        | none => none
        | some v =>
          if _has_legacy_section_reference v then
            _eval_legacy_section_reference config v
          else some v
      let kw : RawMirrorKwargs :=
        { directory := dirv,
          storage_backend := sectionGet source "storage_backend",
          master := sectionGet source "master",
          proxy := sectionGet source "proxy",
          download_mirror := sectionGet source "download_mirror",
          download_mirror_no_fallback :=
            sectionGet source "download_mirror_no_fallback",
          simple_format := sectionGet source "simple_format",
          release_files := sectionGet source "release_files",
          json := sectionGet source "json",
          root_uri := sectionGet source "root_uri",
          hash_index := sectionGet source "hash_index",
          keep_index_versions := sectionGet source "keep_index_versions",
          diff_file := diffv,
          diff_append_epoch := sectionGet source "diff_append_epoch",
          stop_on_error := sectionGet source "stop_on_error",
          timeout := sectionGet source "timeout",
          global_timeout := sectionGet source "global_timeout",
          workers := sectionGet source "workers",
          verifiers := sectionGet source "verifiers",
          compare_method := sectionGet source "compare_method",
          digest_name := sectionGet source "digest_name",
          log_config := sectionGet source "log_config",
          cleanup := sectionGet source "cleanup" }
      match mkMirrorConfiguration kw with
      | .ok inst => .ok inst
      | .error (.valueError m) => .error (invalidValueFor "mirror" m)
      | .error (.typeError m) => .error (configurationErrorFor "mirror" m)

/-- The `MirrorConfiguration` holding every documented default of §4.3 for a
given required `directory` (the shape `from_config_parser` produces from a
section that sets only `directory`). -/
def mirrorDefaults (dir : String) : MirrorConfiguration :=
  { directory := dir,
    storage_backend_name := "filesystem",
    master_url := "https://pypi.org",
    proxy_url := none,
    download_mirror_url := none,
    download_mirror_no_fallback := false,
    simple_format := SimpleFormat.ALL,
    save_release_files := true,
    save_json := false,
    root_uri := "",
    hash_index := false,
    keep_index_versions := 0,
    diff_file := pathJoin dir "mirrored-files",
    diff_append_epoch := false,
    stop_on_error := false,
    timeout := 10,
    global_timeout := 1800,
    workers := 3,
    verifiers := 3,
    compare_method := ComparisonMethod.HASH,
    digest_name := SimpleDigest.SHA256,
    log_config := none,
    cleanup := false }

/-- What the two cache getters see of a model class: its `__name__`, its
`__qualname__`, and its classmethod table (attribute lookup on the class);
a construction classmethod takes the config source and either returns an
instance or raises. -/
structure ModelType (κ ε α : Type) where
  name : String
  qualname : String
  methods : List (String × (κ → Except ε α))

/-- Failures a cache getter can surface: the `AttributeError` from looking up
a classmethod the model does not define, or an exception the construction
classmethod raised. -/
inductive CacheError (ε : Type) where
  | attributeError (attr : String)
  | raised (e : ε)

/-- `BandersnatchConfig.get_validated` from `core.py`: key the cache by the
model's `__name__`; on a miss fetch and call `from_config_source` and store
the result; return the stored entry.  The result carries the updated cache
and how many times a construction classmethod was invoked during the call. -/
def getValidated {κ ε α : Type} (m : ModelType κ ε α) (cfg : κ)
    (cache : List (String × α)) :
    Except (CacheError ε) (α × List (String × α) × Nat) :=
  match alookup cache m.name with
  | some v => .ok (v, cache, 0)
  | none =>
    match alookup m.methods "from_config_source" with
    | none => .error (.attributeError "from_config_source")
    | some construct =>
      match construct cfg with
      | .error e => .error (.raised e)
      | .ok v => .ok (v, (m.name, v) :: cache, 1)

/-- `BandersnatchConfig.get_typed` from `next.py`: the same memoisation, but
keyed by `__qualname__` and calling `from_config_parser`. -/
def getTyped {κ ε α : Type} (m : ModelType κ ε α) (cfg : κ)
    (cache : List (String × α)) :
    Except (CacheError ε) (α × List (String × α) × Nat) :=
  match alookup cache m.qualname with
  | some v => .ok (v, cache, 0)
  | none =>
    match alookup m.methods "from_config_parser" with
    | none => .error (.attributeError "from_config_parser")
    | some construct =>
      match construct cfg with
      | .error e => .error (.raised e)
      | .ok v => .ok (v, (m.qualname, v) :: cache, 1)

/-- The class `MirrorConfiguration` as the cache getters see it: `mirror.py`
defines the single construction classmethod `from_config_parser` and no
`from_config_source`. -/
def mirrorModel : ModelType ConfigSource ConfigError MirrorConfiguration :=
  { name := "MirrorConfiguration",
    qualname := "MirrorConfiguration",
    methods := [("from_config_parser", MirrorConfiguration.fromConfigParser)] }

/-- A config source holding only `[mirror] directory = /test`. -/
def cfgMirrorOnly : ConfigSource := ⟨[("mirror", [("directory", "/test")])]⟩

/-- A config source with a `[test]` section and a `diff-file` holding a
mid-string legacy reference (the shape of `test_diff_file_legacy_ref`). -/
def cfgLegacyMid : ConfigSource :=
  ⟨[("test", [("example", "/var/log")]),
    ("mirror", [("directory", "/test"),
      ("diff_file", "{{ test_example }}/bandersnatch")])]⟩

/-- `[mirror]` with `release-files = false` and `root-uri` unset. -/
def cfgReleaseFilesFalse : ConfigSource :=
  ⟨[("mirror", [("directory", "/test"), ("release_files", "false")])]⟩

/-- `[mirror]` with `release-files = false` and `root-uri` explicitly empty. -/
def cfgReleaseFilesFalseEmptyRoot : ConfigSource :=
  ⟨[("mirror", [("directory", "/test"), ("release_files", "false"),
    ("root_uri", "")])]⟩

/-- `[mirror]` with `release-files = true` and `root-uri` unset. -/
def cfgReleaseFilesTrue : ConfigSource :=
  ⟨[("mirror", [("directory", "/test"), ("release_files", "true")])]⟩

/-- `[mirror]` with `release-files = false` and a non-empty `root-uri`. -/
def cfgReleaseFilesFalseRootSet : ConfigSource :=
  ⟨[("mirror", [("directory", "/test"), ("release_files", "false"),
    ("root_uri", "https://example.com")])]⟩

/-- `[mirror]` whose `diff-file` legacy reference names a nonexistent option. -/
def cfgDiffWoops : ConfigSource :=
  ⟨[("mirror", [("directory", "/test"), ("diff_file", "{{ mirror_woops }}")])]⟩

/-- `[mirror]` with the non-required option `workers` set to the empty string. -/
def cfgWorkersEmptyValue : ConfigSource :=
  ⟨[("mirror", [("directory", "/test"), ("workers", "")])]⟩

/-- `[mirror]` with the non-required option `root-uri` set to the empty string. -/
def cfgRootUriEmptyValue : ConfigSource :=
  ⟨[("mirror", [("directory", "/test"), ("root_uri", "")])]⟩

/-- `[mirror]` with the required option `directory` set to the empty string. -/
def cfgDirectoryEmptyValue : ConfigSource :=
  ⟨[("mirror", [("directory", "")])]⟩

/-- The family of `[mirror]` sections setting `directory` and a raw `workers`
string. -/
def mirrorCfgWorkers (s : String) : ConfigSource :=
  ⟨[("mirror", [("directory", "/test"), ("workers", s)])]⟩

/-- The family of `[mirror]` sections setting `directory` and a raw
`verifiers` string. -/
def mirrorCfgVerifiers (s : String) : ConfigSource :=
  ⟨[("mirror", [("directory", "/test"), ("verifiers", s)])]⟩

/-- The message `converter_for_type` produces for a failed `int` conversion
of an option. -/
def intConvertErrorMsg (k bad : String) : String :=
  "can't convert option '" ++ k ++ "' to expected type 'int': "
    ++ "invalid literal for int() with base 10: '" ++ bad ++ "'"

/-- A match (in the `re.search` sense) of the pattern
`can't convert option .* to expected type 'int'`: the two literals occur
contiguously with arbitrary newline-free text between them. -/
def matchesIntPattern (msg : String) : Prop :=
  ∃ a b c : String,
    msg = a ++ "can't convert option " ++ b ++ " to expected type 'int'" ++ c
    ∧ '\n' ∉ b.data

/-- A small model class for exercising the cache getters: both construction
classmethods are defined and total. -/
def cacheDemoModel : ModelType Nat String Nat :=
  { name := "M",
    qualname := "M",
    methods := [("from_config_source", fun n => .ok (n + 1)),
      ("from_config_parser", fun n => .ok (n + 2))] }

/-- A second model class distinct from `cacheDemoModel` but sharing its
`__name__` and `__qualname__`; its construction classmethods return
different values. -/
def cacheDemoModelB : ModelType Nat String Nat :=
  { name := "M",
    qualname := "M",
    methods := [("from_config_source", fun _ => .ok 99),
      ("from_config_parser", fun _ => .ok 98)] }

/-
Helper lemmas: full evaluation of the validation pipeline on the
`workers`/`verifiers` config families, with the raw option string symbolic.
-/

/-- Pipeline evaluation for `mirrorCfgWorkers`: the three validator outcomes
for a `workers` value that converts to `w`. -/
theorem workersPipeline (s : String) (w : Int) (h : pythonInt s = some w) :
    (0 < w → w ≤ 10 → MirrorConfiguration.fromConfigParser (mirrorCfgWorkers s)
        = .ok { mirrorDefaults "/test" with workers := w })
    ∧ (¬ (0 < w) → ∃ m, MirrorConfiguration.fromConfigParser (mirrorCfgWorkers s)
        = .error (ConfigError.invalidValueError m))
    ∧ (0 < w → ¬ (w ≤ 10) → ∃ m,
        MirrorConfiguration.fromConfigParser (mirrorCfgWorkers s)
          = .error (ConfigError.invalidValueError m)) := by
  have g0 : alookup (mirrorCfgWorkers s).sections "mirror"
      = some [("directory", "/test"), ("workers", s)] := rfl
  have g1 : sectionGet [("directory", "/test"), ("workers", s)] "directory" = some "/test" := rfl
  have g2 : sectionGet [("directory", "/test"), ("workers", s)] "workers" = some s := rfl
  have n01 : sectionGet [("directory", "/test"), ("workers", s)] "storage_backend" = none := rfl
  have n02 : sectionGet [("directory", "/test"), ("workers", s)] "master" = none := rfl
  have n03 : sectionGet [("directory", "/test"), ("workers", s)] "proxy" = none := rfl
  have n04 : sectionGet [("directory", "/test"), ("workers", s)] "download_mirror" = none := rfl
  have n05 : sectionGet [("directory", "/test"), ("workers", s)] "download_mirror_no_fallback" = none := rfl
  have n06 : sectionGet [("directory", "/test"), ("workers", s)] "simple_format" = none := rfl
  have n07 : sectionGet [("directory", "/test"), ("workers", s)] "release_files" = none := rfl
  have n08 : sectionGet [("directory", "/test"), ("workers", s)] "json" = none := rfl
  have n09 : sectionGet [("directory", "/test"), ("workers", s)] "root_uri" = none := rfl
  have n10 : sectionGet [("directory", "/test"), ("workers", s)] "hash_index" = none := rfl
  have n11 : sectionGet [("directory", "/test"), ("workers", s)] "keep_index_versions" = none := rfl
  have n12 : sectionGet [("directory", "/test"), ("workers", s)] "diff_file" = none := rfl
  have n13 : sectionGet [("directory", "/test"), ("workers", s)] "diff_append_epoch" = none := rfl
  have n14 : sectionGet [("directory", "/test"), ("workers", s)] "stop_on_error" = none := rfl
  have n15 : sectionGet [("directory", "/test"), ("workers", s)] "timeout" = none := rfl
  have n16 : sectionGet [("directory", "/test"), ("workers", s)] "global_timeout" = none := rfl
  have n17 : sectionGet [("directory", "/test"), ("workers", s)] "verifiers" = none := rfl
  have n18 : sectionGet [("directory", "/test"), ("workers", s)] "compare_method" = none := rfl
  have n19 : sectionGet [("directory", "/test"), ("workers", s)] "digest_name" = none := rfl
  have n20 : sectionGet [("directory", "/test"), ("workers", s)] "log_config" = none := rfl
  have n21 : sectionGet [("directory", "/test"), ("workers", s)] "cleanup" = none := rfl
  simp only [MirrorConfiguration.fromConfigParser, g0, g1, g2, n01, n02, n03, n04, n05,
    n06, n07, n08, n09, n10, n11, n12, n13, n14, n15, n16, n17, n18, n19, n20, n21]
  simp only [mkMirrorConfiguration, convertField, intOptionConverter, converter_for_type,
    intOfPy, h, purePathOfPy, Option.getD, bind, Except.bind, pure, Except.pure,
    vNotEmpty, vOptNotEmpty, vGeInt, vGtInt, vLeInt, vGtRat, attrsPostInit]
  refine ⟨fun hw0 hw10 => ?_, fun hw0 => ?_, fun hw0 hw10 => ?_⟩
  · simp [hw0, hw10]
    rfl
  · simp [hw0]
    exact ⟨_, rfl⟩
  · simp [hw0, hw10]
    exact ⟨_, rfl⟩

/-- Pipeline evaluation for `mirrorCfgVerifiers`, mirroring
`workersPipeline`. -/
theorem verifiersPipeline (s : String) (w : Int) (h : pythonInt s = some w) :
    (0 < w → w ≤ 10 → MirrorConfiguration.fromConfigParser (mirrorCfgVerifiers s)
        = .ok { mirrorDefaults "/test" with verifiers := w })
    ∧ (¬ (0 < w) → ∃ m, MirrorConfiguration.fromConfigParser (mirrorCfgVerifiers s)
        = .error (ConfigError.invalidValueError m))
    ∧ (0 < w → ¬ (w ≤ 10) → ∃ m,
        MirrorConfiguration.fromConfigParser (mirrorCfgVerifiers s)
          = .error (ConfigError.invalidValueError m)) := by
  have g0 : alookup (mirrorCfgVerifiers s).sections "mirror"
      = some [("directory", "/test"), ("verifiers", s)] := rfl
  have g1 : sectionGet [("directory", "/test"), ("verifiers", s)] "directory" = some "/test" := rfl
  have g2 : sectionGet [("directory", "/test"), ("verifiers", s)] "verifiers" = some s := rfl
  have n01 : sectionGet [("directory", "/test"), ("verifiers", s)] "storage_backend" = none := rfl
  have n02 : sectionGet [("directory", "/test"), ("verifiers", s)] "master" = none := rfl
  have n03 : sectionGet [("directory", "/test"), ("verifiers", s)] "proxy" = none := rfl
  have n04 : sectionGet [("directory", "/test"), ("verifiers", s)] "download_mirror" = none := rfl
  have n05 : sectionGet [("directory", "/test"), ("verifiers", s)] "download_mirror_no_fallback" = none := rfl
  have n06 : sectionGet [("directory", "/test"), ("verifiers", s)] "simple_format" = none := rfl
  have n07 : sectionGet [("directory", "/test"), ("verifiers", s)] "release_files" = none := rfl
  have n08 : sectionGet [("directory", "/test"), ("verifiers", s)] "json" = none := rfl
  have n09 : sectionGet [("directory", "/test"), ("verifiers", s)] "root_uri" = none := rfl
  have n10 : sectionGet [("directory", "/test"), ("verifiers", s)] "hash_index" = none := rfl
  have n11 : sectionGet [("directory", "/test"), ("verifiers", s)] "keep_index_versions" = none := rfl
  have n12 : sectionGet [("directory", "/test"), ("verifiers", s)] "diff_file" = none := rfl
  have n13 : sectionGet [("directory", "/test"), ("verifiers", s)] "diff_append_epoch" = none := rfl
  have n14 : sectionGet [("directory", "/test"), ("verifiers", s)] "stop_on_error" = none := rfl
  have n15 : sectionGet [("directory", "/test"), ("verifiers", s)] "timeout" = none := rfl
  have n16 : sectionGet [("directory", "/test"), ("verifiers", s)] "global_timeout" = none := rfl
  have n17 : sectionGet [("directory", "/test"), ("verifiers", s)] "workers" = none := rfl
  have n18 : sectionGet [("directory", "/test"), ("verifiers", s)] "compare_method" = none := rfl
  have n19 : sectionGet [("directory", "/test"), ("verifiers", s)] "digest_name" = none := rfl
  have n20 : sectionGet [("directory", "/test"), ("verifiers", s)] "log_config" = none := rfl
  have n21 : sectionGet [("directory", "/test"), ("verifiers", s)] "cleanup" = none := rfl
  simp only [MirrorConfiguration.fromConfigParser, g0, g1, g2, n01, n02, n03, n04, n05,
    n06, n07, n08, n09, n10, n11, n12, n13, n14, n15, n16, n17, n18, n19, n20, n21]
  simp only [mkMirrorConfiguration, convertField, intOptionConverter, converter_for_type,
    intOfPy, h, purePathOfPy, Option.getD, bind, Except.bind, pure, Except.pure,
    vNotEmpty, vOptNotEmpty, vGeInt, vGtInt, vLeInt, vGtRat, attrsPostInit]
  refine ⟨fun hw0 hw10 => ?_, fun hw0 => ?_, fun hw0 hw10 => ?_⟩
  · simp [hw0, hw10]
    rfl
  · simp [hw0]
    exact ⟨_, rfl⟩
  · simp [hw0, hw10]
    exact ⟨_, rfl⟩

/-
The claims.
-/

/-- Claim C1: `eval_legacy_reference` is claimed to raise exactly when no
fallback was supplied and the value fails to parse or the reference target is
missing, and to return the fallback in those cases otherwise.  The code's
missing-reference branch compares the fallback against `None` instead of
against the `UNSET` sentinel: with no fallback supplied it returns the
`UNSET` sentinel instead of raising, and with `fallback=None` supplied it
raises instead of returning the fallback.  Only the parse-failure branch and
the supplied-string-fallback case behave as claimed. -/
theorem c1_eval_legacy_reference_fallback_slip :
    eval_legacy_reference cfgMirrorOnly "/var/{{ mirror_woops }}/foo"
        PyVal.unsetSentinel = .ok PyVal.unsetSentinel
    ∧ eval_legacy_reference cfgMirrorOnly "/var/{{ mirror_woops }}/foo"
        PyVal.pyNone = .error (RefError.noOptionError "mirror" "woops")
    ∧ eval_legacy_reference cfgMirrorOnly "/var/{{ mirror_woops }}/foo"
        (PyVal.str "fb") = .ok (PyVal.str "fb")
    ∧ eval_legacy_reference cfgMirrorOnly "{{ missing.underscore }}/foo"
        PyVal.unsetSentinel = .error (RefError.valueError
          "Unable to parse config option reference from '{{ missing.underscore }}/foo'") :=
  ⟨rfl, rfl, rfl, rfl⟩

/-- Claim C2: legacy-reference evaluation is claimed to keep the text around
a mid-string reference.  `core.py`'s `eval_legacy_reference` does
(`prefix ++ resolved ++ suffix`), but the evaluator the validation pipeline
actually calls, `mirror.py`'s `_eval_legacy_section_reference`, discards the
surrounding text and corrupts the section/option split, so the reference from
`test_diff_file_legacy_ref` evaluates to `None` and `diff_file` silently
falls back to its default instead of `/var/log/bandersnatch`. -/
theorem c2_midstring_reference_dropped :
    _eval_legacy_section_reference cfgLegacyMid "{{ test_example }}/bandersnatch"
        = none
    ∧ eval_legacy_reference cfgLegacyMid "{{ test_example }}/bandersnatch"
        PyVal.unsetSentinel = .ok (PyVal.str "/var/log/bandersnatch")
    ∧ MirrorConfiguration.fromConfigParser cfgLegacyMid
        = .ok (mirrorDefaults "/test") :=
  ⟨rfl, rfl, rfl⟩

/-- Claim C3: with `release-files = false` and `root-uri` unset or empty the
validated `root_uri` is the fixed fallback URI; with `release-files` true or
unset and `root-uri` unset it is `""`; and the post-construction defaulting
step never touches an instance whose `root_uri` is non-empty. -/
theorem c3_root_uri_defaulting :
    ((MirrorConfiguration.fromConfigParser cfgReleaseFilesFalse).toOption.map
        (fun c => c.root_uri) = some _default_root_uri)
    ∧ ((MirrorConfiguration.fromConfigParser cfgReleaseFilesFalseEmptyRoot).toOption.map
        (fun c => c.root_uri) = some _default_root_uri)
    ∧ ((MirrorConfiguration.fromConfigParser cfgReleaseFilesTrue).toOption.map
        (fun c => c.root_uri) = some "")
    ∧ ((MirrorConfiguration.fromConfigParser cfgMirrorOnly).toOption.map
        (fun c => c.root_uri) = some "")
    ∧ ((MirrorConfiguration.fromConfigParser cfgReleaseFilesFalseRootSet).toOption.map
        (fun c => c.root_uri) = some "https://example.com")
    ∧ (∀ c : MirrorConfiguration, c.root_uri ≠ "" → attrsPostInit c = c) := by
  refine ⟨rfl, rfl, rfl, rfl, rfl, ?_⟩
  intro c hc
  unfold attrsPostInit
  rw [if_neg]
  exact fun hcond => hc hcond.2

/-- Witness for C3: the defaulting step leaves a concrete instance with a
non-empty `root_uri` unchanged. -/
theorem c3_root_uri_defaulting_witness :
    attrsPostInit { mirrorDefaults "/x" with root_uri := "https://example.com" }
      = { mirrorDefaults "/x" with root_uri := "https://example.com" } :=
  c3_root_uri_defaulting.2.2.2.2.2 _ (by decide)

/-- Counterexample for C4: a `diff-file` legacy reference to the nonexistent
option `{{ mirror_woops }}` does not fail validation; `from_config_parser`
returns a fully defaulted instance. -/
theorem c4_counterexample :
    MirrorConfiguration.fromConfigParser cfgDiffWoops
      = .ok (mirrorDefaults "/test") := rfl

/-- Claim C4 as amended: a `diff-file` legacy reference to a nonexistent
option does not abort validation; the lookup failure makes
`_eval_legacy_section_reference` return `None` (after logging), the value is
treated as absent, and `diff_file` falls back to its default
`<directory>/mirrored-files`. -/
theorem c4_amended_reference_falls_back :
    _eval_legacy_section_reference cfgDiffWoops "{{ mirror_woops }}" = none
    ∧ MirrorConfiguration.fromConfigParser cfgDiffWoops
        = .ok (mirrorDefaults "/test")
    ∧ (mirrorDefaults "/test").diff_file = "/test/mirrored-files" :=
  ⟨rfl, rfl, rfl⟩

/-- Claim C5: for a fixed config source and a model type whose construction
classmethod succeeds, requesting the model twice returns the same stored
instance from both getters (`get_validated` keyed by `__name__` calling
`from_config_source`; `get_typed` keyed by `__qualname__` calling
`from_config_parser`), and the construction classmethod runs exactly once
(once on the first call, zero times on the second). -/
theorem c5_cache_validates_once {κ ε α : Type} (m : ModelType κ ε α) (cfg : κ)
    (f g : κ → Except ε α) (v w : α)
    (hf : alookup m.methods "from_config_source" = some f) (hv : f cfg = .ok v)
    (hg : alookup m.methods "from_config_parser" = some g) (hw : g cfg = .ok w) :
    (getValidated m cfg [] = .ok (v, [(m.name, v)], 1)
      ∧ getValidated m cfg [(m.name, v)] = .ok (v, [(m.name, v)], 0))
    ∧ (getTyped m cfg [] = .ok (w, [(m.qualname, w)], 1)
      ∧ getTyped m cfg [(m.qualname, w)] = .ok (w, [(m.qualname, w)], 0)) := by
  refine ⟨⟨?_, ?_⟩, ?_, ?_⟩
  · simp [getValidated, alookup, hf, hv]
  · simp [getValidated, alookup]
  · simp [getTyped, alookup, hg, hw]
  · simp [getTyped, alookup]

/-- Witness for C5: both getters on a concrete model and source. -/
theorem c5_cache_validates_once_witness :
    (getValidated cacheDemoModel 0 [] = .ok (1, [("M", 1)], 1)
      ∧ getValidated cacheDemoModel 0 [("M", 1)] = .ok (1, [("M", 1)], 0))
    ∧ (getTyped cacheDemoModel 0 [] = .ok (2, [("M", 2)], 1)
      ∧ getTyped cacheDemoModel 0 [("M", 2)] = .ok (2, [("M", 2)], 0)) :=
  c5_cache_validates_once cacheDemoModel 0 (fun n => .ok (n + 1))
    (fun n => .ok (n + 2)) 1 2 rfl rfl rfl rfl

/-- Counterexample for C6: setting the non-required option `workers` to the
empty string does not validate to the default 3; the empty string is passed
to the `int` converter and validation fails. -/
theorem c6_counterexample :
    MirrorConfiguration.fromConfigParser cfgWorkersEmptyValue
      = .error (ConfigError.invalidValueError
        ("Config section '[mirror]': can't convert option 'workers' to "
          ++ "expected type 'int': invalid literal for int() with base 10: ''")) :=
  rfl

/-- Claim C6 as amended: an empty string is treated as absent only for
required fields (`directory`, which then raises `MissingOptionError`); for
non-required fields the empty string is not treated as absent but passed to
the field's converter/validator, failing for typed options such as `workers`,
while an option whose converter and validator both accept the empty string,
such as `root_uri`, validates with the empty value — which for `root_uri`
coincides with its default. -/
theorem c6_amended_empty_string_not_absent :
    MirrorConfiguration.fromConfigParser cfgDirectoryEmptyValue
      = .error (missingOptionFor "mirror" "directory")
    ∧ MirrorConfiguration.fromConfigParser cfgWorkersEmptyValue
      = .error (invalidValueFor "mirror"
        ("can't convert option 'workers' to expected type 'int': "
          ++ "invalid literal for int() with base 10: ''"))
    ∧ MirrorConfiguration.fromConfigParser cfgRootUriEmptyValue
      = .ok (mirrorDefaults "/test") :=
  ⟨rfl, rfl, rfl⟩

/-- Claim C7: with `directory` set, a `workers` or `verifiers` string that
converts to an integer in `[1, 10]` validates (the field holds that value and
everything else its default), and one that converts to an integer outside
`[1, 10]` fails with the invalid-value error. -/
theorem c7_workers_verifiers_range (s : String) (w : Int)
    (h : pythonInt s = some w) :
    (1 ≤ w ∧ w ≤ 10 →
      MirrorConfiguration.fromConfigParser (mirrorCfgWorkers s)
          = .ok { mirrorDefaults "/test" with workers := w }
      ∧ MirrorConfiguration.fromConfigParser (mirrorCfgVerifiers s)
          = .ok { mirrorDefaults "/test" with verifiers := w })
    ∧ (w ≤ 0 ∨ 11 ≤ w →
      (∃ m, MirrorConfiguration.fromConfigParser (mirrorCfgWorkers s)
          = .error (ConfigError.invalidValueError m))
      ∧ (∃ m, MirrorConfiguration.fromConfigParser (mirrorCfgVerifiers s)
          = .error (ConfigError.invalidValueError m))) := by
  obtain ⟨wok, werr0, werr10⟩ := workersPipeline s w h
  obtain ⟨vok, verr0, verr10⟩ := verifiersPipeline s w h
  constructor
  · rintro ⟨h1, h2⟩
    exact ⟨wok (by omega) h2, vok (by omega) h2⟩
  · rintro (hb | hb)
    · exact ⟨werr0 (by omega), verr0 (by omega)⟩
    · exact ⟨werr10 (by omega) (by omega), verr10 (by omega) (by omega)⟩

/-- Witness for C7: the boundary value 10 validates. -/
theorem c7_workers_verifiers_range_witness :
    MirrorConfiguration.fromConfigParser (mirrorCfgWorkers "10")
      = .ok { mirrorDefaults "/test" with workers := 10 } :=
  ((c7_workers_verifiers_range "10" 10 rfl).1 (by decide)).1

/-- Claim C8: for each `int`-annotated option of `MirrorConfiguration`, the
strings `"1"`, `"01"` and `"0_1"` convert to 1, while `"1_"`, `"fooey"` and
`"no"` fail with a `ValueError` whose message matches
`can't convert option .* to expected type 'int'`. -/
theorem c8_int_option_conversion (k : String) (hk : k ∈ mirrorIntOptionAliases) :
    (intOptionConverter k "1" = .ok 1
      ∧ intOptionConverter k "01" = .ok 1
      ∧ intOptionConverter k "0_1" = .ok 1)
    ∧ (intOptionConverter k "1_"
        = .error (PyExc.valueError (intConvertErrorMsg k "1_"))
      ∧ intOptionConverter k "fooey"
        = .error (PyExc.valueError (intConvertErrorMsg k "fooey"))
      ∧ intOptionConverter k "no"
        = .error (PyExc.valueError (intConvertErrorMsg k "no")))
    ∧ (matchesIntPattern (intConvertErrorMsg k "1_")
      ∧ matchesIntPattern (intConvertErrorMsg k "fooey")
      ∧ matchesIntPattern (intConvertErrorMsg k "no")) := by
  have hk3 : k = "keep_index_versions" ∨ k = "workers" ∨ k = "verifiers" := by
    simpa [mirrorIntOptionAliases] using hk
  rcases hk3 with rfl | rfl | rfl
  · exact ⟨⟨rfl, rfl, rfl⟩, ⟨rfl, rfl, rfl⟩,
      ⟨"", "'keep_index_versions'", ": invalid literal for int() with base 10: '1_'",
        by decide, by decide⟩,
      ⟨"", "'keep_index_versions'", ": invalid literal for int() with base 10: 'fooey'",
        by decide, by decide⟩,
      ⟨"", "'keep_index_versions'", ": invalid literal for int() with base 10: 'no'",
        by decide, by decide⟩⟩
  · exact ⟨⟨rfl, rfl, rfl⟩, ⟨rfl, rfl, rfl⟩,
      ⟨"", "'workers'", ": invalid literal for int() with base 10: '1_'",
        by decide, by decide⟩,
      ⟨"", "'workers'", ": invalid literal for int() with base 10: 'fooey'",
        by decide, by decide⟩,
      ⟨"", "'workers'", ": invalid literal for int() with base 10: 'no'",
        by decide, by decide⟩⟩
  · exact ⟨⟨rfl, rfl, rfl⟩, ⟨rfl, rfl, rfl⟩,
      ⟨"", "'verifiers'", ": invalid literal for int() with base 10: '1_'",
        by decide, by decide⟩,
      ⟨"", "'verifiers'", ": invalid literal for int() with base 10: 'fooey'",
        by decide, by decide⟩,
      ⟨"", "'verifiers'", ": invalid literal for int() with base 10: 'no'",
        by decide, by decide⟩⟩

/-- Witness for C8: the `workers` converter at the listed inputs. -/
theorem c8_int_option_conversion_witness :
    intOptionConverter "workers" "0_1" = .ok 1 :=
  (c8_int_option_conversion "workers" (by decide)).1.2.2

/-- Claim C9: the class method table of `MirrorConfiguration` has
`from_config_parser` but no `from_config_source`, so `get_validated` (which
fetches `from_config_source`) raises `AttributeError` on every config source
instead of returning a validated instance. -/
theorem c9_get_validated_attribute_error (cfg : ConfigSource) :
    alookup mirrorModel.methods "from_config_source" = none
    ∧ (alookup mirrorModel.methods "from_config_parser").isSome = true
    ∧ getValidated mirrorModel cfg []
        = .error (CacheError.attributeError "from_config_source") :=
  ⟨rfl, rfl, rfl⟩

/-- Claim C10: the caches are keyed by class name, not type identity: if two
model types share a `__name__` (resp. `__qualname__`), then after the first
has been requested, requesting the second returns the first's cached instance
and invokes no construction classmethod (invocation count 0), for both
`get_validated` and `get_typed`. -/
theorem c10_cache_keyed_by_class_name {κ ε α : Type} (A B : ModelType κ ε α)
    (cfg : κ) (f g : κ → Except ε α) (v w : α)
    (hname : A.name = B.name) (hqual : A.qualname = B.qualname)
    (hf : alookup A.methods "from_config_source" = some f) (hv : f cfg = .ok v)
    (hg : alookup A.methods "from_config_parser" = some g) (hw : g cfg = .ok w) :
    (getValidated A cfg [] = .ok (v, [(A.name, v)], 1)
      ∧ getValidated B cfg [(A.name, v)] = .ok (v, [(A.name, v)], 0))
    ∧ (getTyped A cfg [] = .ok (w, [(A.qualname, w)], 1)
      ∧ getTyped B cfg [(A.qualname, w)] = .ok (w, [(A.qualname, w)], 0)) := by
  refine ⟨⟨?_, ?_⟩, ?_, ?_⟩
  · simp [getValidated, alookup, hf, hv]
  · simp [getValidated, alookup, hname]
  · simp [getTyped, alookup, hg, hw]
  · simp [getTyped, alookup, hqual]

/-- Witness for C10: `cacheDemoModelB` shares `cacheDemoModel`'s name; after
`cacheDemoModel` is cached, requesting `cacheDemoModelB` returns the cached
instance (1, not 100) with no construction. -/
theorem c10_cache_keyed_by_class_name_witness :
    (getValidated cacheDemoModel 0 [] = .ok (1, [("M", 1)], 1)
      ∧ getValidated cacheDemoModelB 0 [("M", 1)] = .ok (1, [("M", 1)], 0))
    ∧ (getTyped cacheDemoModel 0 [] = .ok (2, [("M", 2)], 1)
      ∧ getTyped cacheDemoModelB 0 [("M", 2)] = .ok (2, [("M", 2)], 0)) :=
  c10_cache_keyed_by_class_name cacheDemoModel cacheDemoModelB 0
    (fun n => .ok (n + 1)) (fun n => .ok (n + 2)) 1 2 rfl rfl rfl rfl rfl rfl

end Bandersnatch
